import Mathlib

/-!
Verification development for the SQL-agent pipeline (client.py / server.py).

The development shallowly embeds the orchestrator in client.py
(SQLAgentClient.ask: the fixed stage sequence and the bounded
retry/repair loop) and the server-side helpers in server.py
(the JSON-extraction helper, the data-dictionary loader, the
run_sqlite_query tool and the ner_generator_dynamic tool).

Python JSON values are modelled by the inductive type JsonVal; a
decoded Python dict is an association list of key/value pairs.
Remote tool calls made by the client are modelled by an Env record
giving, for each stage, the observed outcome of each call in one run:
either a raised exception (carrying the exception text) or the dict
decoded from the returned JSON text.  External effects black-boxed by
the source (the Anthropic model call, the sqlite engine, the
filesystem) are oracle parameters of the corresponding definitions.

Modelling notes, stated once here:
- json.loads is modelled by a fuel-based recursive-descent decoder
  restricted to integer numerals and to the escape sequences listed in
  unescapeChar; the claims exercise only that fragment.  The text of a
  Python JSONDecodeError is modelled by the fixed stand-in string
  jsonDecodeErrorText.
- json.dumps / json.loads round-trips between client and server are
  elided: tool results travel as decoded dicts.
- Python str() applied to a decoded JSON value is modelled by pyStr.
-/

/-- Model of a decoded Python JSON value. -/
inductive JsonVal where
  | null : JsonVal
  | bool : Bool → JsonVal
  | num : Int → JsonVal
  | str : String → JsonVal
  | arr : List JsonVal → JsonVal
  | obj : List (String × JsonVal) → JsonVal

/-- A decoded Python dict: an ordered association list of fields. -/
abbrev Dict := List (String × JsonVal)

/-- First value bound to a key in a dict (Python d[k] / d.get(k)). -/
def lookupD : Dict → String → Option JsonVal
  | [], _ => none
  | (k, v) :: rest, key => if k = key then some v else lookupD rest key

/-- Python membership test: key in d. -/
def dictHasKey (d : Dict) (k : String) : Bool :=
  (lookupD d k).isSome

/-- Python d.get(k, default). -/
def pyGetD (d : Dict) (k : String) (dflt : JsonVal) : JsonVal :=
  (lookupD d k).getD dflt

/-- Python truthiness of a decoded JSON value (if not x). -/
def pyTruthy : JsonVal → Bool
  | .null => false
  | .bool b => b
  | .num n => n != 0
  | .str s => s != ""
  | .arr xs => !xs.isEmpty
  | .obj kvs => !kvs.isEmpty

mutual

/-- Python repr() of a decoded JSON value (the rendering f-strings use
for values inside containers; strings get quoted). -/
def pyRepr : JsonVal → String
  | .null => "None"
  | .bool true => "True"
  | .bool false => "False"
  | .num n => toString n
  | .str s => "\x27" ++ s ++ "\x27"
  | .arr xs => "[" ++ pyReprList xs ++ "]"
  | .obj kvs => "\x7b" ++ pyReprFields kvs ++ "\x7d"

/-- Comma-separated repr of list elements. -/
def pyReprList : List JsonVal → String
  | [] => ""
  | [x] => pyRepr x
  | x :: y :: xs => pyRepr x ++ ", " ++ pyReprList (y :: xs)

/-- Comma-separated repr of dict fields. -/
def pyReprFields : List (String × JsonVal) → String
  | [] => ""
  | [(k, v)] => pyRepr (.str k) ++ ": " ++ pyRepr v
  | (k, v) :: p :: kvs => pyRepr (.str k) ++ ": " ++ pyRepr v ++ ", " ++ pyReprFields (p :: kvs)

end

/-- Python str() of a decoded JSON value (as interpolated by f-strings):
a string renders as itself, everything else as its repr. -/
def pyStr : JsonVal → String
  | .str s => s
  | v => pyRepr v

/-- Python str() of an optional value (str(None) is the text None). -/
def pyStrOpt : Option JsonVal → String
  | none => "None"
  | some v => pyStr v

/-- JSON insignificant whitespace. -/
def isWsChar (c : Char) : Bool :=
  c = ' ' || c = '\n' || c = '\t' || c = '\r'

/-- Drop leading JSON whitespace. -/
def skipWs : List Char → List Char
  | [] => []
  | c :: cs => if isWsChar c then skipWs cs else c :: cs

/-- ASCII decimal digit test. -/
def isDigitChar (c : Char) : Bool :=
  '0' ≤ c && c ≤ '9'

/-- Consume a maximal run of digits, accumulating their value. -/
def takeDigits : List Char → Nat → Nat × List Char
  | [], acc => (acc, [])
  | c :: cs, acc =>
    if isDigitChar c then takeDigits cs (acc * 10 + (c.toNat - '0'.toNat))
    else (acc, c :: cs)

/-- Decode a JSON integer numeral (model restriction: no fraction or
exponent part; the payloads the claims exercise are integers). -/
def parseNumber : List Char → Option (JsonVal × List Char)
  | [] => none
  | '-' :: cs =>
    match cs with
    | [] => none
    | c :: _ =>
      if isDigitChar c then
        let p := takeDigits cs 0
        some (.num (-(p.1 : Int)), p.2)
      else none
  | c :: cs =>
    if isDigitChar c then
      let p := takeDigits (c :: cs) 0
      some (.num (p.1 : Int), p.2)
    else none

/-- Decode one backslash escape inside a JSON string (model
restriction: no unicode escapes). -/
def unescapeChar (c : Char) : Option Char :=
  if c = '"' then some '"'
  else if c = '\\' then some '\\'
  else if c = '/' then some '/'
  else if c = 'n' then some '\n'
  else if c = 't' then some '\t'
  else if c = 'r' then some '\r'
  else if c = 'b' then some (Char.ofNat 8)
  else if c = 'f' then some (Char.ofNat 12)
  else none

/-- Decode the body of a JSON string after its opening quote. -/
def parseStringBody : List Char → List Char → Option (String × List Char)
  | [], _ => none
  | c :: cs, acc =>
    if c = '"' then some (String.mk acc.reverse, cs)
    else if c = '\\' then
      match cs with
      | [] => none
      | e :: cs2 =>
        match unescapeChar e with
        | some ch => parseStringBody cs2 (ch :: acc)
        | none => none
    else parseStringBody cs (c :: acc)

mutual

/-- Decode one JSON value from the input (fuel-based recursive descent
modelling json.loads). -/
def parseVal (fuel : Nat) (cs : List Char) : Option (JsonVal × List Char) :=
  match fuel with
  | 0 => none
  | f + 1 =>
    match skipWs cs with
    | '"' :: rest =>
      match parseStringBody rest [] with
      | some (s, r) => some (.str s, r)
      | none => none
    | '\x7b' :: rest => parseObjRest f rest
    | '[' :: rest => parseArrRest f rest
    | 't' :: 'r' :: 'u' :: 'e' :: rest => some (.bool true, rest)
    | 'f' :: 'a' :: 'l' :: 's' :: 'e' :: rest => some (.bool false, rest)
    | 'n' :: 'u' :: 'l' :: 'l' :: rest => some (.null, rest)
    | other => parseNumber other

/-- Decode an object after its opening brace. -/
def parseObjRest (fuel : Nat) (cs : List Char) : Option (JsonVal × List Char) :=
  match fuel with
  | 0 => none
  | f + 1 =>
    match skipWs cs with
    | '\x7d' :: rest => some (.obj [], rest)
    | _ => parseMembers f cs []

/-- Decode the remaining key/value members of an object. -/
def parseMembers (fuel : Nat) (cs : List Char) (acc : List (String × JsonVal)) :
    Option (JsonVal × List Char) :=
  match fuel with
  | 0 => none
  | f + 1 =>
    match skipWs cs with
    | '"' :: rest =>
      match parseStringBody rest [] with
      | none => none
      | some (key, r1) =>
        match skipWs r1 with
        | ':' :: r2 =>
          match parseVal f r2 with
          | none => none
          | some (v, r3) =>
            match skipWs r3 with
            | ',' :: r4 => parseMembers f r4 (acc ++ [(key, v)])
            | '\x7d' :: r4 => some (.obj (acc ++ [(key, v)]), r4)
            | _ => none
        | _ => none
    | _ => none

/-- Decode an array after its opening bracket. -/
def parseArrRest (fuel : Nat) (cs : List Char) : Option (JsonVal × List Char) :=
  match fuel with
  | 0 => none
  | f + 1 =>
    match skipWs cs with
    | ']' :: rest => some (.arr [], rest)
    | _ => parseItems f cs []

/-- Decode the remaining items of an array. -/
def parseItems (fuel : Nat) (cs : List Char) (acc : List JsonVal) :
    Option (JsonVal × List Char) :=
  match fuel with
  | 0 => none
  | f + 1 =>
    match parseVal f cs with
    | none => none
    | some (v, r1) =>
      match skipWs r1 with
      | ',' :: r2 => parseItems f r2 (acc ++ [v])
      | ']' :: r2 => some (.arr (acc ++ [v]), r2)
      | _ => none

end

/-- Model of Python json.loads: decode one value and require only
whitespace after it (otherwise Python raises Extra data); none models
a raised JSONDecodeError. -/
def json_loads (s : String) : Option JsonVal :=
  match parseVal (s.length + 1) s.data with
  | some (v, rest) => if skipWs rest = [] then some v else none
  | none => none

/-- Index of the first occurrence of a character, if any. -/
def firstIndexOfAux : List Char → Char → Nat → Option Nat
  | [], _, _ => none
  | c :: cs, t, i => if c = t then some i else firstIndexOfAux cs t (i + 1)

/-- Python str.find for a single character (none models the -1 result). -/
def pyFind (s : String) (t : Char) : Option Nat :=
  firstIndexOfAux s.data t 0

/-- Python str.rfind for a single character (none models the -1 result). -/
def pyRfind (s : String) (t : Char) : Option Nat :=
  (firstIndexOfAux s.data.reverse t 0).map (fun i => s.length - 1 - i)

/-- Python slice s[a:b] with nonnegative bounds. -/
def pySlice (s : String) (a b : Nat) : String :=
  String.mk ((s.data.take b).drop a)

/-- The error payload dicts built by server.py: a dict with a single
error field carrying the message. -/
def mkErrorObj (msg : String) : JsonVal :=
  .obj [("error", .str msg)]

/-- Stand-in for the rendered text of the Python JSONDecodeError that
json.loads raises on an undecodable substring. -/
def jsonDecodeErrorText : String := "could not decode the extracted substring"

/-- Model of server.py _parse_llm_json_response (the leading underscore
of the source name is dropped): find the first opening brace and the
last closing brace, try json.loads on that slice; a decode failure or a
missing brace yields an error payload instead of an exception. -/
def parse_llm_json_response (s : String) : JsonVal :=
  match pyFind s '\x7b', pyRfind s '\x7d' with
  | some a, some b =>
    match json_loads (pySlice s a (b + 1)) with
    | some v => v
    | none => mkErrorObj ("JSON decoding error: " ++ jsonDecodeErrorText)
  | _, _ => mkErrorObj "No valid JSON found in the response."

/-- Observed outcome of one remote tool call as seen by the client:
either the call (or the subsequent json.loads of its text) raised an
exception carrying the given text, or it produced a decoded dict. -/
abbrev CallRes := Except String Dict

/-- One run's worth of stage outcomes, as observed by the client.
The three pre-loop stages are called at most once; the execute and
repair stages are indexed by how many calls to that stage came before
(so execRes 0 is the first run_sqlite_query call).  finalRes gives the
outcome of generate_final_answer on the dict it is invoked with:
either a raised exception or the returned answer text. -/
structure Env where
  nerRes : CallRes
  sqlRes : CallRes
  valRes : CallRes
  execRes : Nat → CallRes
  repairRes : Nat → CallRes
  finalRes : Dict → Except String String

/-- The retry bound of client.py (max_retries = 3). -/
def max_retries : Nat := 3

/-- The terminal message built after the loop exhausts its attempts,
from the last database result (client.py line 109). -/
def failureMessage (lastDb : Dict) : String :=
  "Failed to execute the query after " ++ toString max_retries ++
    " attempts. Last error: " ++ pyStrOpt (lookupD lastDb "error")

/-- Result of the retry loop: the value returned to the outer try
(or the exception text escaping to it), together with the inputs of
every execute, repair and answer-synthesis call the loop made. -/
structure LoopOut where
  result : Except String String
  execInputs : List Dict
  repairInputs : List (Dict × JsonVal)
  finalInputs : List Dict

/-- Model of the retry loop of SQLAgentClient.ask (client.py lines
74-109).  i is the number of execute calls already made, remaining the
number of loop iterations left, cur the live validated_sql_dict and
lastDb the db_dict of the previous iteration (read only when the loop
exhausts, which in the source can only happen after an iteration has
bound it).  Each iteration: call run_sqlite_query on cur; if the dict
has no error field, call generate_final_answer and return its text;
otherwise call handle_error_agent (also on the last iteration) and
continue with its dict. -/
def runLoop (env : Env) (i : Nat) (remaining : Nat) (cur : Dict) (lastDb : Dict) : LoopOut :=
  match remaining with
  | 0 => ⟨.ok (failureMessage lastDb), [], [], []⟩
  | r + 1 =>
    match env.execRes i with
    | .error e => ⟨.error e, [cur], [], []⟩
    | .ok db =>
      if dictHasKey db "error" = false then
        match env.finalRes db with
        | .error e => ⟨.error e, [cur], [], [db]⟩
        | .ok txt => ⟨.ok txt, [cur], [], [db]⟩
      else
        let errVal := pyGetD db "error" (.str "Unknown database error")
        match env.repairRes i with
        | .error e => ⟨.error e, [cur], [(cur, errVal)], []⟩
        | .ok newCur =>
          let rest := runLoop env (i + 1) r newCur db
          ⟨rest.result, cur :: rest.execInputs, (cur, errVal) :: rest.repairInputs,
            rest.finalInputs⟩

/-- Which calls a run of ask made: whether each pre-loop stage was
invoked, and the inputs of the loop-stage calls. -/
structure Trace where
  nerCalled : Bool
  sqlCalled : Bool
  valCalled : Bool
  execInputs : List Dict
  repairInputs : List (Dict × JsonVal)
  finalInputs : List Dict

/-- Model of the body of the try block of SQLAgentClient.ask (client.py
lines 50-109): the three pre-loop stage calls in sequence, each dict
passed forward unchecked, then the retry loop seeded with the validated
dict.  An Except.error result models an exception reaching the outer
except handler.  The question itself is threaded to the stages through
Env, whose outcomes already account for it. -/
def pipelineBody (env : Env) : Except String String × Trace :=
  match env.nerRes with
  | .error e => (.error e, ⟨true, false, false, [], [], []⟩)
  | .ok _nerDict =>
    match env.sqlRes with
    | .error e => (.error e, ⟨true, true, false, [], [], []⟩)
    | .ok _sqlDict =>
      match env.valRes with
      | .error e => (.error e, ⟨true, true, true, [], [], []⟩)
      | .ok valDict =>
        let out := runLoop env 0 max_retries valDict []
        (out.result, ⟨true, true, true, out.execInputs, out.repairInputs, out.finalInputs⟩)

/-- Model of SQLAgentClient.ask (client.py lines 44-112): if no session
is connected, return the fixed not-connected string without calling any
stage; otherwise run the pipeline body and convert any exception
escaping it into the generic critical-error message. -/
def ask (connected : Bool) (env : Env) (_question : String) : String × Trace :=
  if connected then
    match pipelineBody env with
    | (.ok s, tr) => (s, tr)
    | (.error e, tr) => ("A critical error occurred in the pipeline: " ++ e, tr)
  else
    ("Error: Not connected to the server.", ⟨false, false, false, [], [], []⟩)

/-- A row of the data dictionary CSV (server.py lines 32-35). -/
structure DataDictRow where
  columnHeader : String
  businessHeader : String
  definition : String
  exampleText : String

/-- The observable state of the data dictionary file: absent
(FileNotFoundError), unreadable for another reason, or readable with
the given rows. -/
inductive DataDictFile where
  | missing
  | readError (msg : String)
  | present (rows : List DataDictRow)

/-- The line rendered for one dictionary row (server.py line 35). -/
def dataDictLine (r : DataDictRow) : String :=
  "- Column \x27" ++ r.columnHeader ++ "\x27 (also called \x27" ++ r.businessHeader ++
    "\x27): " ++ r.definition ++ ". Example: " ++ r.exampleText ++ "\n"

/-- Model of server.py get_data_dictionary_description: render the CSV
rows as text; a missing file degrades to a placeholder sentence and any
other read failure to an error sentence, never an exception. -/
def get_data_dictionary_description (f : DataDictFile) : String :=
  match f with
  | .present rows =>
    "This is the data dictionary. It explains the columns in the database tables:\n" ++
      String.join (rows.map dataDictLine)
  | .missing => "Data dictionary file not found. I will proceed without it."
  | .readError e => "Error reading data dictionary: " ++ e

/-- The prompt built by ner_generator_dynamic (server.py lines 93-107),
with the data-dictionary description and the question interpolated
(source indentation reproduced approximately). -/
def nerPrompt (data_dictionary question : String) : String :=
  "\n    You are a data analyst. Your job is to extract key entities from a user\x27s question.\n" ++
  "    Use the provided data dictionary to understand the columns.\n\n" ++
  "    Data Dictionary:\n    " ++ data_dictionary ++ "\n\n" ++
  "    User Question: \"" ++ question ++ "\"\n\n" ++
  "    Extract the necessary components to answer the question. Your output MUST be a single JSON object with keys: \"table\", \"columns_to_select\", and \"filters\".\n" ++
  "    - \"table\": The table name, which is always a county name (e.g., \"King\").\n" ++
  "    - \"columns_to_select\": A list of columns the user wants to see.\n" ++
  "    - \"filters\": A dictionary of filters to apply, where the key is the column name and value is the condition.\n\n    "

/-- Model of server.py ner_generator_dynamic: build the prompt from the
dictionary description, call the model (an oracle from prompt text to
either a raised-exception text or a response text) and extract the JSON
payload from the response; an exception anywhere yields an error
payload.  The json.dumps of the result is elided (see header). -/
def ner_generator_dynamic (f : DataDictFile) (llm : String → Except String String)
    (question : String) : JsonVal :=
  let data_dictionary := get_data_dictionary_description f
  let prompt := nerPrompt data_dictionary question
  match llm prompt with
  | .ok txt => parse_llm_json_response txt
  | .error e => mkErrorObj ("Error in ner_generator_dynamic: " ++ e)

/-- The error payload run_sqlite_query returns when the input dict
carries no usable query text (server.py line 206). -/
def noQueryDict : Dict :=
  [("error", .str "No SQL query provided."), ("data", .arr [])]

/-- Model of server.py run_sqlite_query: read sql_query from the input
dict; a missing or falsy value yields the no-query error payload; a
present value is run against the database engine (an oracle from the
query value to either rows or a raised-exception text, covering the
sqlite connect/execute/fetch calls), and an engine exception yields an
error payload embedding its text. -/
def run_sqlite_query (dbEngine : JsonVal → Except String (List Dict))
    (sql_dict : Dict) : Dict :=
  match lookupD sql_dict "sql_query" with
  | none => noQueryDict
  | some v =>
    if pyTruthy v = false then noQueryDict
    else
      match dbEngine v with
      | .ok rows => [("data", .arr (rows.map JsonVal.obj))]
      | .error e => [("error", .str ("Database query failed: " ++ e)), ("data", .arr [])]

/-- Recognizer for the error payloads built by server.py: a dict whose
error key is present. -/
def isErrorPayload : JsonVal → Bool
  | .obj d => dictHasKey d "error"
  | _ => false

/-- The answer-and-trace of a connected ask run is the pipeline body's
answer converted through the except handler; its trace is the body's. -/
theorem ask_trace_eq (env : Env) (question : String) :
    (ask true env question).2 = (pipelineBody env).2 := by
  unfold ask
  rcases h : pipelineBody env with ⟨r, tr⟩
  cases r <;> rfl

/-- When the pipeline body returns normally, ask returns its value. -/
theorem ask_fst_of_ok (env : Env) (question : String) (s : String)
    (h : (pipelineBody env).1 = Except.ok s) :
    (ask true env question).1 = s := by
  unfold ask
  rcases hp : pipelineBody env with ⟨r, tr⟩
  rw [hp] at h
  simp only at h
  subst h
  rfl

/-- When all three pre-loop stages return dicts, the pipeline body is
exactly the retry loop seeded with the validated dict. -/
theorem pipelineBody_loop (env : Env) (nerD sqlD valD : Dict)
    (hner : env.nerRes = Except.ok nerD) (hsql : env.sqlRes = Except.ok sqlD)
    (hval : env.valRes = Except.ok valD) :
    pipelineBody env =
      ((runLoop env 0 max_retries valD []).result,
        ⟨true, true, true, (runLoop env 0 max_retries valD []).execInputs,
          (runLoop env 0 max_retries valD []).repairInputs,
          (runLoop env 0 max_retries valD []).finalInputs⟩) := by
  unfold pipelineBody
  rw [hner, hsql, hval]

/-- Each iteration of the retry loop records its live dict first. -/
theorem runLoop_exec_head (env : Env) (i r : Nat) (cur lastDb : Dict) :
    ∃ t, (runLoop env i (r + 1) cur lastDb).execInputs = cur :: t := by
  simp only [runLoop]
  rcases env.execRes i with e | db
  · exact ⟨[], rfl⟩
  · simp only
    by_cases hd : dictHasKey db "error" = false
    · simp only [hd, if_true]
      rcases env.finalRes db with e | txt
      · exact ⟨[], rfl⟩
      · exact ⟨[], rfl⟩
    · simp only [hd, if_false]
      rcases env.repairRes i with e | newCur
      · exact ⟨[], rfl⟩
      · exact ⟨(runLoop env (i + 1) r newCur db).execInputs, rfl⟩

/-- The retry loop makes at most as many execute calls as it has
iterations left. -/
theorem runLoop_exec_le (env : Env) :
    ∀ r i cur lastDb, (runLoop env i r cur lastDb).execInputs.length ≤ r := by
  intro r
  induction r with
  | zero => intro i cur lastDb; simp [runLoop]
  | succ n ih =>
    intro i cur lastDb
    simp only [runLoop]
    rcases env.execRes i with e | db
    · simp
    · simp only
      by_cases hd : dictHasKey db "error" = false
      · simp only [hd, if_true]
        rcases env.finalRes db with e | txt <;> simp
      · simp only [hd, if_false]
        rcases env.repairRes i with e | newCur
        · simp
        · simpa using ih (i + 1) newCur db

/-- C10: called with no established session, ask returns exactly the
not-connected message and invokes no stage: the trace records no
pre-loop call and empty execute, repair and answer-synthesis call
lists, and no state is touched. -/
theorem ask_not_connected (env : Env) (question : String) :
    ask false env question =
      ("Error: Not connected to the server.", ⟨false, false, false, [], [], []⟩) := rfl

/-- C1: ask is total (it is a function into String) and never lets a
fault propagate: whenever the pipeline body ends with a raised
exception, ask returns the single generic terminal message embedding
the exception text. -/
theorem ask_total_no_raise (env : Env) (question : String) (e : String)
    (h : (pipelineBody env).1 = Except.error e) :
    (ask true env question).1 = "A critical error occurred in the pipeline: " ++ e := by
  unfold ask
  rcases hp : pipelineBody env with ⟨r, tr⟩
  rw [hp] at h
  simp only at h
  subst h
  rfl

/-- Environment in which the first stage call raises. -/
def envNerRaises : Env :=
  { nerRes := .error "boom"
    sqlRes := .ok []
    valRes := .ok []
    execRes := fun _ => .ok []
    repairRes := fun _ => .ok []
    finalRes := fun _ => .ok "" }

/-- Witness for C1 at a concrete run whose extraction call raises. -/
theorem ask_total_no_raise_witness :
    (ask true envNerRaises "q").1 = "A critical error occurred in the pipeline: boom" :=
  ask_total_no_raise envNerRaises "q" "boom" rfl

/-- C8: over every session state and every sequence of stage outcomes,
one ask run makes at most max_retries (= 3) execute-stage calls. -/
theorem exec_calls_bounded (connected : Bool) (env : Env) (question : String) :
    (ask connected env question).2.execInputs.length ≤ max_retries := by
  cases connected with
  | false => simp [ask]
  | true =>
    rw [ask_trace_eq]
    unfold pipelineBody
    rcases env.nerRes with e | nerD
    · simp
    · simp only
      rcases env.sqlRes with e | sqlD
      · simp
      · simp only
        rcases env.valRes with e | valD
        · simp
        · simpa using runLoop_exec_le env max_retries 0 valD []

/-- If every remaining attempt's execute call returns an error-bearing
dict and every repair call returns a dict, the loop runs all its
iterations, makes one repair call per iteration (the last one
included), synthesizes no answer, and ends with the terminal failure
message built from the last database dict. -/
theorem runLoop_all_fail (env : Env) (dbs reps : Nat → Dict) :
    ∀ r i cur lastDb,
      (∀ j, j < r → env.execRes (i + j) = Except.ok (dbs (i + j)) ∧
          dictHasKey (dbs (i + j)) "error" = true) →
      (∀ j, j < r → env.repairRes (i + j) = Except.ok (reps (i + j))) →
      (runLoop env i r cur lastDb).execInputs.length = r ∧
      (runLoop env i r cur lastDb).repairInputs.length = r ∧
      (runLoop env i r cur lastDb).finalInputs = [] ∧
      (runLoop env i r cur lastDb).result =
        Except.ok (failureMessage
          (match r with | 0 => lastDb | Nat.succ r' => dbs (i + r'))) := by
  intro r
  induction r with
  | zero =>
    intro i cur lastDb _ _
    exact ⟨rfl, rfl, rfl, rfl⟩
  | succ n ih =>
    intro i cur lastDb hexec hrep
    have h0 := hexec 0 (Nat.succ_pos n)
    have hr0 := hrep 0 (Nat.succ_pos n)
    simp only [Nat.add_zero] at h0 hr0
    have ihh := ih (i + 1) (reps i) (dbs i)
      (fun j hj => by
        have hx := hexec (j + 1) (Nat.succ_lt_succ hj)
        have harith : i + (j + 1) = i + 1 + j := by omega
        rw [harith] at hx
        exact hx)
      (fun j hj => by
        have hx := hrep (j + 1) (Nat.succ_lt_succ hj)
        have harith : i + (j + 1) = i + 1 + j := by omega
        rw [harith] at hx
        exact hx)
    simp only [runLoop, h0.1, h0.2, hr0]
    refine ⟨by simp [ihh.1], by simp [ihh.2.1], by simp [ihh.2.2.1], ?_⟩
    simp only [ihh.2.2.2]
    cases n with
    | zero => simp
    | succ m =>
      have harith : i + 1 + m = i + (m + 1) := by omega
      simp [harith]

/-- If the first m attempts fail with error-bearing dicts and working
repairs, and attempt m + 1 (0-based index m) returns an error-free
dict, the loop stops there: m + 1 execute calls, m repair calls, one
answer-synthesis call on that dict, and its text as the result. -/
theorem runLoop_success_at (env : Env) (dbs reps : Nat → Dict) (txt : String) :
    ∀ m r i cur lastDb, m < r →
      (∀ j, j < m → env.execRes (i + j) = Except.ok (dbs (i + j)) ∧
          dictHasKey (dbs (i + j)) "error" = true) →
      (∀ j, j < m → env.repairRes (i + j) = Except.ok (reps (i + j))) →
      env.execRes (i + m) = Except.ok (dbs (i + m)) →
      dictHasKey (dbs (i + m)) "error" = false →
      env.finalRes (dbs (i + m)) = Except.ok txt →
      (runLoop env i r cur lastDb).execInputs.length = m + 1 ∧
      (runLoop env i r cur lastDb).repairInputs.length = m ∧
      (runLoop env i r cur lastDb).finalInputs = [dbs (i + m)] ∧
      (runLoop env i r cur lastDb).result = Except.ok txt := by
  intro m
  induction m with
  | zero =>
    intro r i cur lastDb hr _ _ hok hnoerr hfinal
    obtain ⟨r', rfl⟩ : ∃ r', r = r' + 1 := ⟨r - 1, by omega⟩
    simp only [Nat.add_zero] at hok hnoerr hfinal
    simp only [runLoop, hok, hnoerr, hfinal]
    exact ⟨rfl, rfl, rfl, rfl⟩
  | succ n ih =>
    intro r i cur lastDb hr hfail hrep hok hnoerr hfinal
    obtain ⟨r', rfl⟩ : ∃ r', r = r' + 1 := ⟨r - 1, by omega⟩
    have h0 := hfail 0 (Nat.succ_pos n)
    have hrep0 := hrep 0 (Nat.succ_pos n)
    simp only [Nat.add_zero] at h0 hrep0
    have harith : i + (n + 1) = i + 1 + n := by omega
    rw [harith] at hok hnoerr hfinal
    have ihh := ih r' (i + 1) (reps i) (dbs i) (by omega)
      (fun j hj => by
        have hx := hfail (j + 1) (Nat.succ_lt_succ hj)
        have ha : i + (j + 1) = i + 1 + j := by omega
        rw [ha] at hx
        exact hx)
      (fun j hj => by
        have hx := hrep (j + 1) (Nat.succ_lt_succ hj)
        have ha : i + (j + 1) = i + 1 + j := by omega
        rw [ha] at hx
        exact hx)
      hok hnoerr hfinal
    simp only [runLoop, h0.1, h0.2, hrep0]
    refine ⟨by simp [ihh.1], by simp [ihh.2.1], by simp [ihh.2.2.1, harith], ?_⟩
    simp [ihh.2.2.2]

/-- If the first m + 1 attempts fail, the first m repairs work and the
repair after attempt m + 1 returns the dict badD while iterations
remain, the next iteration's execute call is made with badD. -/
theorem runLoop_next_input (env : Env) (dbs reps : Nat → Dict) :
    ∀ m r i cur lastDb, m + 1 < r →
      (∀ j, j ≤ m → env.execRes (i + j) = Except.ok (dbs (i + j)) ∧
          dictHasKey (dbs (i + j)) "error" = true) →
      (∀ j, j < m → env.repairRes (i + j) = Except.ok (reps (i + j))) →
      ∀ badD, env.repairRes (i + m) = Except.ok badD →
      (runLoop env i r cur lastDb).execInputs.get? (m + 1) = some badD ∧
      m + 2 ≤ (runLoop env i r cur lastDb).execInputs.length := by
  intro m
  induction m with
  | zero =>
    intro r i cur lastDb hr hfail _ badD hbad
    obtain ⟨r', rfl⟩ : ∃ r', r = r' + 1 := ⟨r - 1, by omega⟩
    obtain ⟨r'', rfl⟩ : ∃ r'', r' = r'' + 1 := ⟨r' - 1, by omega⟩
    have h0 := hfail 0 (Nat.le_refl 0)
    simp only [Nat.add_zero] at h0 hbad
    simp only [runLoop, h0.1, h0.2, hbad]
    rcases henv : env.execRes (i + 1) with e | db
    · simp [henv]
    · simp only [henv]
      by_cases hd : dictHasKey db "error" = false
      · rcases hf : env.finalRes db with e | t <;> simp [hd, hf]
      · rcases hrp : env.repairRes (i + 1) with e | nc <;> simp [hd, hrp]
  | succ n ih =>
    intro r i cur lastDb hr hfail hrep badD hbad
    obtain ⟨r', rfl⟩ : ∃ r', r = r' + 1 := ⟨r - 1, by omega⟩
    have h0 := hfail 0 (Nat.zero_le (n + 1))
    have hrep0 := hrep 0 (Nat.succ_pos n)
    simp only [Nat.add_zero] at h0 hrep0
    have harith : i + (n + 1) = i + 1 + n := by omega
    rw [harith] at hbad
    have ihh := ih r' (i + 1) (reps i) (dbs i) (by omega)
      (fun j hj => by
        have hx := hfail (j + 1) (Nat.succ_le_succ hj)
        have ha : i + (j + 1) = i + 1 + j := by omega
        rw [ha] at hx
        exact hx)
      (fun j hj => by
        have hx := hrep (j + 1) (Nat.succ_lt_succ hj)
        have ha : i + (j + 1) = i + 1 + j := by omega
        rw [ha] at hx
        exact hx)
      badD hbad
    simp only [runLoop, h0.1, h0.2, hrep0]
    constructor
    · simpa using ihh.1
    · have h2 := ihh.2
      simp
      omega

/-- A database result dict bearing an error field. -/
def errDict : Dict := [("error", JsonVal.str "no such column: Model_Year")]

/-- A dict carrying a query, as produced by the repair stage. -/
def fixedDict : Dict := [("sql_query", JsonVal.str "SELECT 2")]

/-- An error-free database result dict. -/
def okDict : Dict := [("data", JsonVal.arr [])]

/-- A dict carrying a query, as produced by synthesis and validation. -/
def baseDict : Dict := [("sql_query", JsonVal.str "SELECT 1")]

/-- Environment in which every execute attempt fails and every repair
call returns a dict. -/
def envAllFail : Env :=
  { nerRes := .ok [("table", .str "King")]
    sqlRes := .ok baseDict
    valRes := .ok baseDict
    execRes := fun _ => .ok errDict
    repairRes := fun _ => .ok fixedDict
    finalRes := fun _ => .ok "unused" }

/-- C2 counterexample: in a run where all three execute attempts return
error-bearing dicts (and repairs return dicts), the source makes three
repair calls, not the two the claim states: the repair agent is also
called after the final failed attempt, its result discarded. -/
theorem retry_exhaustion_two_repairs_cex :
    envAllFail.execRes 0 = Except.ok errDict ∧
    envAllFail.execRes 1 = Except.ok errDict ∧
    envAllFail.execRes 2 = Except.ok errDict ∧
    dictHasKey errDict "error" = true ∧
    (ask true envAllFail "q").2.execInputs.length = 3 ∧
    (ask true envAllFail "q").2.repairInputs.length = 3 ∧
    (ask true envAllFail "q").2.repairInputs.length ≠ 2 :=
  ⟨rfl, rfl, rfl, rfl, rfl, rfl, by decide⟩

/-- C2 (amended): if the execute stage returns an error-bearing dict on
every attempt up to max_retries = 3 and every repair call returns a
dict, then exactly 3 execute calls and exactly 3 repair calls occur
(the source runs the repair agent after the last failed attempt as
well, discarding its result), and ask returns the terminal message
embedding the literal last error value and the attempt count. -/
theorem retry_exhaustion_three_repairs (env : Env) (question : String)
    (nerD sqlD valD : Dict) (dbs reps : Nat → Dict)
    (hner : env.nerRes = Except.ok nerD) (hsql : env.sqlRes = Except.ok sqlD)
    (hval : env.valRes = Except.ok valD)
    (hexec : ∀ i, i < max_retries → env.execRes i = Except.ok (dbs i) ∧
        dictHasKey (dbs i) "error" = true)
    (hrep : ∀ i, i < max_retries → env.repairRes i = Except.ok (reps i)) :
    (ask true env question).2.execInputs.length = max_retries ∧
    (ask true env question).2.repairInputs.length = max_retries ∧
    (ask true env question).1 =
      "Failed to execute the query after " ++ toString max_retries ++
        " attempts. Last error: " ++ pyStrOpt (lookupD (dbs 2) "error") := by
  have hloop := runLoop_all_fail env dbs reps max_retries 0 valD []
    (fun j hj => by simpa using hexec j hj)
    (fun j hj => by simpa using hrep j hj)
  have hpb := pipelineBody_loop env nerD sqlD valD hner hsql hval
  refine ⟨?_, ?_, ?_⟩
  · rw [ask_trace_eq, hpb]
    simpa using hloop.1
  · rw [ask_trace_eq, hpb]
    simpa using hloop.2.1
  · apply ask_fst_of_ok
    rw [hpb]
    simp only
    rw [hloop.2.2.2]
    rfl

/-- Witness for C2 (amended) at the all-fail environment. -/
theorem retry_exhaustion_three_repairs_witness :
    (ask true envAllFail "q").2.execInputs.length = max_retries ∧
    (ask true envAllFail "q").2.repairInputs.length = max_retries ∧
    (ask true envAllFail "q").1 =
      "Failed to execute the query after " ++ toString max_retries ++
        " attempts. Last error: " ++ pyStrOpt (lookupD errDict "error") :=
  retry_exhaustion_three_repairs envAllFail "q" [("table", JsonVal.str "King")]
    baseDict baseDict (fun _ => errDict) (fun _ => fixedDict) rfl rfl rfl
    (fun _ _ => ⟨rfl, rfl⟩) (fun _ _ => rfl)

/-- C3: if the execute stage first returns an error-free dict on attempt
k (1-based, k ≤ max_retries), all earlier attempts returning
error-bearing dicts with working repairs, then exactly k execute calls
and k - 1 repair calls occur, the answer-synthesis stage is called
exactly once, on attempt k's result dict, and its text is what ask
returns. -/
theorem success_at_attempt_k (env : Env) (question : String)
    (nerD sqlD valD : Dict) (dbs reps : Nat → Dict) (k : Nat) (txt : String)
    (hk1 : 1 ≤ k) (hk3 : k ≤ max_retries)
    (hner : env.nerRes = Except.ok nerD) (hsql : env.sqlRes = Except.ok sqlD)
    (hval : env.valRes = Except.ok valD)
    (hfail : ∀ j, j < k - 1 → env.execRes j = Except.ok (dbs j) ∧
        dictHasKey (dbs j) "error" = true)
    (hrep : ∀ j, j < k - 1 → env.repairRes j = Except.ok (reps j))
    (hok : env.execRes (k - 1) = Except.ok (dbs (k - 1)))
    (hnoerr : dictHasKey (dbs (k - 1)) "error" = false)
    (hfinal : env.finalRes (dbs (k - 1)) = Except.ok txt) :
    (ask true env question).2.execInputs.length = k ∧
    (ask true env question).2.repairInputs.length = k - 1 ∧
    (ask true env question).2.finalInputs = [dbs (k - 1)] ∧
    (ask true env question).1 = txt := by
  have h3 : max_retries = 3 := rfl
  have hm : k - 1 < max_retries := by rw [h3]; rw [h3] at hk3; omega
  have hloop := runLoop_success_at env dbs reps txt (k - 1) max_retries 0 valD [] hm
    (fun j hj => by simpa using hfail j hj)
    (fun j hj => by simpa using hrep j hj)
    (by simpa using hok) (by simpa using hnoerr) (by simpa using hfinal)
  have hpb := pipelineBody_loop env nerD sqlD valD hner hsql hval
  have hk : k - 1 + 1 = k := by omega
  refine ⟨?_, ?_, ?_, ?_⟩
  · rw [ask_trace_eq, hpb]
    simpa [hk] using hloop.1
  · rw [ask_trace_eq, hpb]
    simpa using hloop.2.1
  · rw [ask_trace_eq, hpb]
    simpa using hloop.2.2.1
  · exact ask_fst_of_ok env question txt (by rw [hpb]; simpa using hloop.2.2.2)

/-- Environment in which the first execute attempt fails and the second
succeeds. -/
def envOk2 : Env :=
  { nerRes := .ok [("table", .str "King")]
    sqlRes := .ok baseDict
    valRes := .ok baseDict
    execRes := fun i => if i = 0 then .ok errDict else .ok okDict
    repairRes := fun _ => .ok fixedDict
    finalRes := fun _ => .ok "There are 1234 vehicles." }

/-- Witness for C3 at a run that succeeds on the second attempt. -/
theorem success_at_attempt_k_witness :
    (ask true envOk2 "q").2.execInputs.length = 2 ∧
    (ask true envOk2 "q").2.repairInputs.length = 1 ∧
    (ask true envOk2 "q").2.finalInputs = [okDict] ∧
    (ask true envOk2 "q").1 = "There are 1234 vehicles." :=
  success_at_attempt_k envOk2 "q" [("table", JsonVal.str "King")] baseDict baseDict
    (fun i => if i = 0 then errDict else okDict) (fun _ => fixedDict) 2
    "There are 1234 vehicles." (by decide) (by decide) rfl rfl rfl
    (fun j hj => by
      have hj0 : j = 0 := by omega
      subst hj0
      exact ⟨rfl, rfl⟩)
    (fun _ _ => rfl) rfl rfl rfl

/-- C7: if the repair call after a failed attempt returns a dict with
no sql_query field (an InvocationError or ParseFailure payload) while
retry budget remains, the loop does not terminate there: the next
iteration's execute call is made, with that malformed dict as its
input, and run_sqlite_query maps any such dict to the no-query
execution-error payload, so one more unit of the retry budget is
consumed. -/
theorem repair_failure_consumes_attempt (env : Env) (question : String)
    (nerD sqlD valD badD : Dict) (dbs reps : Nat → Dict) (m : Nat)
    (hm : m + 1 < max_retries)
    (hner : env.nerRes = Except.ok nerD) (hsql : env.sqlRes = Except.ok sqlD)
    (hval : env.valRes = Except.ok valD)
    (hfail : ∀ j, j ≤ m → env.execRes j = Except.ok (dbs j) ∧
        dictHasKey (dbs j) "error" = true)
    (hrep : ∀ j, j < m → env.repairRes j = Except.ok (reps j))
    (hbadRep : env.repairRes m = Except.ok badD)
    (hnoQuery : lookupD badD "sql_query" = none) :
    (ask true env question).2.execInputs.get? (m + 1) = some badD ∧
    m + 2 ≤ (ask true env question).2.execInputs.length ∧
    (∀ dbEngine, run_sqlite_query dbEngine badD = noQueryDict) ∧
    dictHasKey noQueryDict "error" = true := by
  have hloop := runLoop_next_input env dbs reps m max_retries 0 valD [] hm
    (fun j hj => by simpa using hfail j hj)
    (fun j hj => by simpa using hrep j hj)
    badD (by simpa using hbadRep)
  have hpb := pipelineBody_loop env nerD sqlD valD hner hsql hval
  refine ⟨?_, ?_, ?_, rfl⟩
  · rw [ask_trace_eq, hpb]
    simpa using hloop.1
  · rw [ask_trace_eq, hpb]
    simpa using hloop.2
  · intro dbEngine
    simp [run_sqlite_query, hnoQuery]

/-- The error payload a failed repair stage hands back in place of a
query dict. -/
def badRepairDict : Dict :=
  [("error", JsonVal.str "LLM Error in handle_error_agent: overloaded")]

/-- Environment in which the first execute attempt fails and the repair
stage returns an error payload instead of a query dict. -/
def envBadRepair : Env :=
  { nerRes := .ok [("table", .str "King")]
    sqlRes := .ok baseDict
    valRes := .ok baseDict
    execRes := fun _ => .ok errDict
    repairRes := fun _ => .ok badRepairDict
    finalRes := fun _ => .ok "unused" }

/-- Witness for C7 at a run whose first repair returns an error payload. -/
theorem repair_failure_consumes_attempt_witness :
    (ask true envBadRepair "q").2.execInputs.get? 1 = some badRepairDict ∧
    2 ≤ (ask true envBadRepair "q").2.execInputs.length ∧
    (∀ dbEngine, run_sqlite_query dbEngine badRepairDict = noQueryDict) ∧
    dictHasKey noQueryDict "error" = true :=
  repair_failure_consumes_attempt envBadRepair "q" [("table", JsonVal.str "King")]
    baseDict baseDict badRepairDict (fun _ => errDict) (fun _ => fixedDict) 0
    (by decide) rfl rfl rfl
    (fun _ _ => ⟨rfl, rfl⟩) (fun j hj => (Nat.not_lt_zero j hj).elim) rfl rfl

/-- The error payload the extraction stage produces when its model call
raises. -/
def nerErrorDict : Dict :=
  [("error", JsonVal.str "Error in ner_generator_dynamic: model overloaded")]

/-- Environment in which extraction returns an error payload and the
remaining stages behave normally. -/
def envNerErrPayload : Env :=
  { nerRes := .ok nerErrorDict
    sqlRes := .ok baseDict
    valRes := .ok baseDict
    execRes := fun _ => .ok okDict
    repairRes := fun _ => .ok fixedDict
    finalRes := fun _ => .ok "an answer" }

/-- C4 counterexample: extraction returns an error payload, yet the
synthesis and validation stages are invoked, the execute stage runs,
and ask returns the synthesized answer rather than failing with the
extraction error: the source never inspects pre-loop dicts for an error
field. -/
theorem preloop_error_payload_cex :
    dictHasKey nerErrorDict "error" = true ∧
    envNerErrPayload.nerRes = Except.ok nerErrorDict ∧
    (ask true envNerErrPayload "q").2.sqlCalled = true ∧
    (ask true envNerErrPayload "q").2.valCalled = true ∧
    (ask true envNerErrPayload "q").2.execInputs.length = 1 ∧
    (ask true envNerErrPayload "q").1 = "an answer" :=
  ⟨rfl, rfl, rfl, rfl, rfl, rfl⟩

/-- C4 (amended): a pre-loop stage returning an error payload does not
short-circuit the pipeline: when extraction's dict carries an error
field and the later pre-loop calls return dicts, synthesis and
validation are still invoked and the execute stage still runs at least
once, the error payload having been carried forward unchecked.  Only a
raised fault short-circuits the pre-loop stages, via the generic
critical-error message. -/
theorem preloop_error_payload_flows_through (env : Env) (question : String)
    (nerD sqlD valD : Dict)
    (hner : env.nerRes = Except.ok nerD) (hnerErr : dictHasKey nerD "error" = true)
    (hsql : env.sqlRes = Except.ok sqlD) (hval : env.valRes = Except.ok valD) :
    (ask true env question).2.sqlCalled = true ∧
    (ask true env question).2.valCalled = true ∧
    1 ≤ (ask true env question).2.execInputs.length := by
  have hpb := pipelineBody_loop env nerD sqlD valD hner hsql hval
  have h3 : max_retries = 2 + 1 := rfl
  obtain ⟨t, ht⟩ := runLoop_exec_head env 0 2 valD []
  refine ⟨?_, ?_, ?_⟩
  · rw [ask_trace_eq, hpb]
  · rw [ask_trace_eq, hpb]
  · rw [ask_trace_eq, hpb]
    simp only
    rw [h3, ht]
    simp

/-- Witness for C4 (amended) at the error-payload-extraction run. -/
theorem preloop_error_payload_flows_through_witness :
    (ask true envNerErrPayload "q").2.sqlCalled = true ∧
    (ask true envNerErrPayload "q").2.valCalled = true ∧
    1 ≤ (ask true envNerErrPayload "q").2.execInputs.length :=
  preloop_error_payload_flows_through envNerErrPayload "q" nerErrorDict baseDict baseDict
    rfl rfl rfl rfl

/-- The response text carrying two top-level JSON objects. -/
def twoObjectsText : String := "\x7b\"a\": 1\x7d \x7b\"b\": 2\x7d"

/-- C5 counterexample: on the two-top-level-objects input, the slice
from the first opening brace to the last closing brace is not valid
JSON, so json.loads fails and the helper returns a ParseFailure error
payload, not the single spanning object the claim states. -/
theorem parser_two_objects_cex :
    json_loads twoObjectsText = none ∧
    parse_llm_json_response twoObjectsText =
      mkErrorObj ("JSON decoding error: " ++ jsonDecodeErrorText) ∧
    isErrorPayload (parse_llm_json_response twoObjectsText) = true :=
  ⟨rfl, rfl, rfl⟩

/-- C5 (amended): on foo-brace-a-brace-bar the helper returns the
structured object with field a mapped to 1; on any input with no
opening brace it returns the no-valid-JSON ParseFailure payload; and on
the two-top-level-objects input, decoding the first-to-last-brace span
fails, so it returns a JSON-decoding-error ParseFailure payload rather
than an object. -/
theorem parser_three_cases :
    parse_llm_json_response "foo \x7b\"a\": 1\x7d bar" =
      JsonVal.obj [("a", JsonVal.num 1)] ∧
    (∀ s : String, pyFind s '\x7b' = none →
      parse_llm_json_response s = mkErrorObj "No valid JSON found in the response.") ∧
    parse_llm_json_response twoObjectsText =
      mkErrorObj ("JSON decoding error: " ++ jsonDecodeErrorText) := by
  refine ⟨rfl, ?_, rfl⟩
  intro s hs
  cases hb : pyRfind s '\x7d' <;> simp [parse_llm_json_response, hs, hb]

/-- Witness for C5 (amended) at a concrete brace-free input. -/
theorem parser_three_cases_witness :
    parse_llm_json_response "the model returned no braces" =
      mkErrorObj "No valid JSON found in the response." :=
  parser_three_cases.2.1 "the model returned no braces" rfl

/-- C6: for every input the helper finds the first opening brace and
the last closing brace and attempts to decode that slice: either both
braces exist and the slice decodes, and the decoded value itself is
returned (never a partial structure); or both exist but decoding fails
and a ParseFailure payload carrying the decoding diagnostic is
returned; or one is missing and the no-valid-JSON ParseFailure payload
is returned.  The helper is a total function: no exception crosses its
boundary. -/
theorem parser_first_last_brace (s : String) :
    (∃ a b v, pyFind s '\x7b' = some a ∧ pyRfind s '\x7d' = some b ∧
        json_loads (pySlice s a (b + 1)) = some v ∧ parse_llm_json_response s = v) ∨
    (∃ a b, pyFind s '\x7b' = some a ∧ pyRfind s '\x7d' = some b ∧
        json_loads (pySlice s a (b + 1)) = none ∧
        parse_llm_json_response s =
          mkErrorObj ("JSON decoding error: " ++ jsonDecodeErrorText)) ∨
    ((pyFind s '\x7b' = none ∨ pyRfind s '\x7d' = none) ∧
        parse_llm_json_response s = mkErrorObj "No valid JSON found in the response.") := by
  rcases ha : pyFind s '\x7b' with _ | a
  · exact Or.inr (Or.inr ⟨Or.inl rfl, by simp [parse_llm_json_response, ha]⟩)
  · rcases hb : pyRfind s '\x7d' with _ | b
    · exact Or.inr (Or.inr ⟨Or.inr rfl, by simp [parse_llm_json_response, ha, hb]⟩)
    · rcases hj : json_loads (pySlice s a (b + 1)) with _ | v
      · exact Or.inr (Or.inl ⟨a, b, rfl, rfl, hj,
          by simp [parse_llm_json_response, ha, hb, hj]⟩)
      · exact Or.inl ⟨a, b, v, rfl, rfl, hj,
          by simp [parse_llm_json_response, ha, hb, hj]⟩

/-- C9: when the data dictionary file is absent, the loader returns the
placeholder sentence instead of failing, and the extraction stage still
proceeds: it calls the model with the placeholder-bearing prompt and
returns the payload extracted from the model's response, never an
absence-induced error payload. -/
theorem missing_dictionary_graceful (llm : String → Except String String)
    (question txt : String)
    (hllm : llm (nerPrompt "Data dictionary file not found. I will proceed without it."
        question) = Except.ok txt) :
    get_data_dictionary_description DataDictFile.missing =
      "Data dictionary file not found. I will proceed without it." ∧
    ner_generator_dynamic DataDictFile.missing llm question =
      parse_llm_json_response txt := by
  refine ⟨rfl, ?_⟩
  simp only [ner_generator_dynamic, get_data_dictionary_description]
  rw [hllm]

/-- A model oracle returning a fixed response wrapped in prose. -/
def llmKing : String → Except String String :=
  fun _ => Except.ok "Here you go: \x7b\"table\": \"King\"\x7d"

/-- Witness for C9 at a concrete model oracle and question. -/
theorem missing_dictionary_graceful_witness :
    get_data_dictionary_description DataDictFile.missing =
      "Data dictionary file not found. I will proceed without it." ∧
    ner_generator_dynamic DataDictFile.missing llmKing
        "How many vehicles are there in King county?" =
      parse_llm_json_response "Here you go: \x7b\"table\": \"King\"\x7d" :=
  missing_dictionary_graceful llmKing "How many vehicles are there in King county?"
    "Here you go: \x7b\"table\": \"King\"\x7d" rfl
